import Mathlib

/-!
Verification of the `raw_map` crate: the RawMap intermediate representation,
its blank constructor, its two synthetic-identifier allocators
(`new_osm_way_id`, `new_osm_node_id`) and the persisted snapshot form.

Machine integers (`i64`) are embedded as `Int`; the allocator loops only ever
decrement away from a finite collection of occupied identifiers, so overflow
is unreachable and the mathematical integers are a faithful model. Geometry
values (points, polygons, polylines), tag maps and names are opaque value
types here, carried around and compared but never computed on, exactly as in
the crate.
-/

namespace AbStreet

/-- Opaque 2D point value (`geom::Pt2D`); coordinates are opaque scalars with
equality, never computed on in this crate. -/
structure Pt2D where
  x : Int
  y : Int
  deriving DecidableEq

/-- Opaque polygon value (`geom::Polygon`). -/
structure Polygon where
  points : List Pt2D
  deriving DecidableEq

/-- Opaque polyline value (`geom::PolyLine`). -/
structure PolyLine where
  points : List Pt2D
  deriving DecidableEq

/-- Opaque tag mapping (`abstutil::Tags`), an ordered key-value map. -/
structure Tags where
  pairs : List (String × String)
  deriving DecidableEq

/-- Modelled from the spec: `abstio::CityName` (not under review), the owning
city part of a structured map name. -/
structure CityName where
  country : String
  city : String
  deriving DecidableEq

/-- Modelled from the spec: `abstio::MapName` (not under review), "a structured
map name (city + map identifier)". -/
structure MapName where
  city : CityName
  map : String
  deriving DecidableEq

/-- Modelled from the spec: amenity value type (defined in the crate's
`types` module, not under review); an opaque value with equality. -/
structure Amenity where
  names : List (String × String)
  amenity_type : String
  deriving DecidableEq

/-- Modelled from the spec: area classification (park/water/etc., defined in
the crate's `types` module, not under review); an opaque tag with equality. -/
structure AreaType where
  tag : String
  deriving DecidableEq

/-- `osm::OsmID`: a source-object identifier, way- node- or relation-based. -/
inductive OsmID where
  | node : Int → OsmID
  | way : Int → OsmID
  | relation : Int → OsmID
  deriving DecidableEq

/-- Key of `streets.roads` (`osm2streets::OriginalRoad`): the originating OSM
way plus its two endpoint intersections. -/
structure OriginalRoad where
  osm_way_id : Int
  i1 : Int
  i2 : Int
  deriving DecidableEq

/-- The street-network graph is an external component (`osm2streets`); this
crate only consults its road keys and intersection keys, so it is embedded by
those key collections. -/
structure StreetNetwork where
  roads : List OriginalRoad
  intersections : List Int
  deriving DecidableEq

/-- Modelled from the spec: `osm2streets::StreetNetwork::blank` (external, not
under review), "a blank street network reporting zero roads and zero
intersections". -/
def StreetNetwork.blank : StreetNetwork :=
  { roads := [], intersections := [] }

/-- Modelled from the spec: `abstutil::MultiMap` (not under review), a
multi-valued mapping from key to set of values; contents are order-irrelevant
and are embedded as an association list from key to value list. -/
structure MultiMap (K V : Type) where
  entries : List (K × List V)
  deriving DecidableEq

/-- Modelled from the spec: `MultiMap::new`, the empty multimap. -/
def MultiMap.new (K V : Type) : MultiMap K V :=
  { entries := [] }

/-- `RawTransitType`: route kind. -/
inductive RawTransitType where
  | bus : RawTransitType
  | train : RawTransitType
  deriving DecidableEq

/-- `RawBuilding`: footprint, source tags, optional garage name, parking-spot
count, amenities. -/
structure RawBuilding where
  polygon : Polygon
  osm_tags : Tags
  public_garage_name : Option String
  num_parking_spots : Nat
  amenities : List Amenity
  deriving DecidableEq

/-- `RawArea`: typed area with footprint, tags and originating identifier. -/
structure RawArea where
  area_type : AreaType
  polygon : Polygon
  osm_tags : Tags
  osm_id : OsmID
  deriving DecidableEq

/-- `RawParkingLot`: originating identifier, footprint, tags. -/
structure RawParkingLot where
  osm_id : OsmID
  polygon : Polygon
  osm_tags : Tags
  deriving DecidableEq

/-- `RawTransitRoute`: names, GTFS id, shape, stop references, kind. -/
structure RawTransitRoute where
  long_name : String
  short_name : String
  gtfs_id : String
  shape : PolyLine
  stops : List String
  route_type : RawTransitType
  deriving DecidableEq

/-- `RawTransitStop`: GTFS id, clipped position, display name. -/
structure RawTransitStop where
  gtfs_id : String
  position : Pt2D
  name : String
  deriving DecidableEq

/-- `RawMap`: the aggregate root. The two `BTreeMap` fields are embedded as
key-ordered association lists, the `Vec` fields as lists, preserving the
serialized ordering. -/
structure RawMap where
  name : MapName
  streets : StreetNetwork
  buildings : List (OsmID × RawBuilding)
  areas : List RawArea
  parking_lots : List RawParkingLot
  parking_aisles : List (Int × List Pt2D)
  transit_routes : List RawTransitRoute
  transit_stops : List (String × RawTransitStop)
  bus_routes_on_roads : MultiMap Int String
  deriving DecidableEq

/-- `RawMap::blank`. -/
def RawMap.blank (name : MapName) : RawMap :=
  { name := name
    streets := StreetNetwork.blank
    buildings := []
    areas := []
    parking_lots := []
    parking_aisles := []
    transit_routes := []
    transit_stops := []
    bus_routes_on_roads := MultiMap.new Int String }

/-- `RawMap::get_city_name`. -/
def RawMap.get_city_name (m : RawMap) : CityName :=
  m.name.city

/-- The collision test of `new_osm_way_id`'s loop body: is `id` the way
identifier of some road key, or the way-based key of some building? -/
def wayIdUsed (m : RawMap) (id : Int) : Bool :=
  m.streets.roads.any (fun r => r.osm_way_id == id)
    || m.buildings.any (fun b => b.1 == OsmID.way id)

/-- The collision test of `new_osm_node_id`'s loop body: is `id` an
intersection key of the street network? -/
def nodeIdUsed (m : RawMap) (id : Int) : Bool :=
  m.streets.intersections.any (fun i => i == id)

/-- The finite set of way identifiers `wayIdUsed` can report occupied. -/
def occupiedWays (m : RawMap) : Finset Int :=
  (m.streets.roads.map (fun r => r.osm_way_id)).toFinset ∪
    (m.buildings.filterMap (fun b =>
      match b.1 with
      | OsmID.way w => some w
      | _ => none)).toFinset

/-- The finite set of node identifiers `nodeIdUsed` can report occupied. -/
def occupiedNodes (m : RawMap) : Finset Int :=
  m.streets.intersections.toFinset

theorem wayIdUsed_iff (m : RawMap) (id : Int) :
    wayIdUsed m id = true ↔ id ∈ occupiedWays m := by
  simp only [wayIdUsed, occupiedWays, Bool.or_eq_true, List.any_eq_true,
    Finset.mem_union, List.mem_toFinset, List.mem_map, List.mem_filterMap,
    beq_iff_eq]
  constructor
  · rintro (⟨r, hr, h⟩ | ⟨b, hb, h⟩)
    · exact Or.inl ⟨r, hr, h⟩
    · exact Or.inr ⟨b, hb, by rw [h]⟩
  · rintro (⟨r, hr, h⟩ | ⟨b, hb, h⟩)
    · exact Or.inl ⟨r, hr, h⟩
    · refine Or.inr ⟨b, hb, ?_⟩
      cases hb1 : b.1 <;> rw [hb1] at h <;> simp at h
      rw [h]

theorem nodeIdUsed_iff (m : RawMap) (id : Int) :
    nodeIdUsed m id = true ↔ id ∈ occupiedNodes m := by
  simp [nodeIdUsed, occupiedNodes, List.any_eq_true]

/-- The scanning loop of `new_osm_way_id`: starting at `id`, decrement while
the candidate collides, return the first free candidate. -/
def scanWay (m : RawMap) (id : Int) : Int :=
  if h : wayIdUsed m id then scanWay m (id - 1) else id
termination_by ((occupiedWays m).filter (fun x => x ≤ id)).card
decreasing_by
  apply Finset.card_lt_card
  rw [Finset.ssubset_iff_of_subset]
  · refine ⟨id, ?_, ?_⟩
    · simp only [Finset.mem_filter]
      exact ⟨(wayIdUsed_iff m id).mp h, le_refl id⟩
    · simp only [Finset.mem_filter, not_and]
      intro _
      omega
  · intro x hx
    simp only [Finset.mem_filter] at hx ⊢
    exact ⟨hx.1, by omega⟩

/-- The scanning loop of `new_osm_node_id`. -/
def scanNode (m : RawMap) (id : Int) : Int :=
  if h : nodeIdUsed m id then scanNode m (id - 1) else id
termination_by ((occupiedNodes m).filter (fun x => x ≤ id)).card
decreasing_by
  apply Finset.card_lt_card
  rw [Finset.ssubset_iff_of_subset]
  · refine ⟨id, ?_, ?_⟩
    · simp only [Finset.mem_filter]
      exact ⟨(nodeIdUsed_iff m id).mp h, le_refl id⟩
    · simp only [Finset.mem_filter, not_and]
      intro _
      omega
  · intro x hx
    simp only [Finset.mem_filter] at hx ⊢
    exact ⟨hx.1, by omega⟩

/-- `RawMap::new_osm_way_id`. The `assert!(start < 0)` is embedded as the
`none` (panic) branch; a `some` result is the returned `osm::WayID`. -/
def new_osm_way_id (m : RawMap) (start : Int) : Option Int :=
  if start < 0 then some (scanWay m start) else none

/-- `RawMap::new_osm_node_id`. The `assert!(start < 0)` is embedded as the
`none` (panic) branch; a `some` result is the returned `osm::NodeID`. -/
def new_osm_node_id (m : RawMap) (start : Int) : Option Int :=
  if start < 0 then some (scanNode m start) else none

theorem scanWay_le (m : RawMap) (id : Int) : scanWay m id ≤ id := by
  induction id using scanWay.induct m with
  | case1 id h ih =>
    rw [scanWay, dif_pos h]
    omega
  | case2 id h =>
    rw [scanWay, dif_neg h]

theorem scanWay_not_used (m : RawMap) (id : Int) :
    wayIdUsed m (scanWay m id) = false := by
  induction id using scanWay.induct m with
  | case1 id h ih =>
    rw [scanWay, dif_pos h]
    exact ih
  | case2 id h =>
    rw [scanWay, dif_neg h]
    exact Bool.not_eq_true _ ▸ eq_false_of_ne_true h

theorem scanWay_occupied_between (m : RawMap) (id : Int) :
    ∀ j, scanWay m id < j → j ≤ id → wayIdUsed m j = true := by
  induction id using scanWay.induct m with
  | case1 id h ih =>
    intro j hj1 hj2
    rw [scanWay, dif_pos h] at hj1
    rcases eq_or_lt_of_le hj2 with heq | hlt
    · rw [heq]; exact h
    · exact ih j hj1 (by omega)
  | case2 id h =>
    intro j hj1 hj2
    rw [scanWay, dif_neg h] at hj1
    omega

theorem scanNode_le (m : RawMap) (id : Int) : scanNode m id ≤ id := by
  induction id using scanNode.induct m with
  | case1 id h ih =>
    rw [scanNode, dif_pos h]
    omega
  | case2 id h =>
    rw [scanNode, dif_neg h]

theorem scanNode_not_used (m : RawMap) (id : Int) :
    nodeIdUsed m (scanNode m id) = false := by
  induction id using scanNode.induct m with
  | case1 id h ih =>
    rw [scanNode, dif_pos h]
    exact ih
  | case2 id h =>
    rw [scanNode, dif_neg h]
    exact Bool.not_eq_true _ ▸ eq_false_of_ne_true h

theorem scanNode_occupied_between (m : RawMap) (id : Int) :
    ∀ j, scanNode m id < j → j ≤ id → nodeIdUsed m j = true := by
  induction id using scanNode.induct m with
  | case1 id h ih =>
    intro j hj1 hj2
    rw [scanNode, dif_pos h] at hj1
    rcases eq_or_lt_of_le hj2 with heq | hlt
    · rw [heq]; exact h
    · exact ih j hj1 (by omega)
  | case2 id h =>
    intro j hj1 hj2
    rw [scanNode, dif_neg h] at hj1
    omega

/-! ### The persisted snapshot form

Modelled from the spec: the binary persistence codec (`abstio::write_binary`
and its reader, external to the crate) is "opaque binary serialization of the
full RawMap graph"; it is embedded as an explicit encoder into a generic
serialized value tree together with its decoder, so that the round-trip
contract of §6 can be stated and proved. -/

/-- A generic serialized value: the data model the snapshot codec targets. -/
inductive Value where
  | vint : Int → Value
  | vnat : Nat → Value
  | vstr : String → Value
  | vlist : List Value → Value

def decInt : Value → Option Int
  | Value.vint n => some n
  | _ => none

def decNat : Value → Option Nat
  | Value.vnat n => some n
  | _ => none

def decStr : Value → Option String
  | Value.vstr s => some s
  | _ => none

def encListWith (f : α → Value) (l : List α) : Value :=
  Value.vlist (l.map f)

def decListAux (g : Value → Option α) : List Value → Option (List α)
  | [] => some []
  | v :: vs =>
    match g v, decListAux g vs with
    | some a, some l => some (a :: l)
    | _, _ => none

def decListWith (g : Value → Option α) : Value → Option (List α)
  | Value.vlist vs => decListAux g vs
  | _ => none

def encPairWith (f : α → Value) (g : β → Value) (p : α × β) : Value :=
  Value.vlist [f p.1, g p.2]

def decPairWith (f : Value → Option α) (g : Value → Option β) :
    Value → Option (α × β)
  | Value.vlist [va, vb] =>
    match f va, g vb with
    | some a, some b => some (a, b)
    | _, _ => none
  | _ => none

def encOptionWith (f : α → Value) : Option α → Value
  | none => Value.vlist []
  | some a => Value.vlist [f a]

def decOptionWith (g : Value → Option α) : Value → Option (Option α)
  | Value.vlist [] => some none
  | Value.vlist [v] =>
    match g v with
    | some a => some (some a)
    | none => none
  | _ => none

theorem decInt_enc (n : Int) : decInt (Value.vint n) = some n := rfl

theorem decNat_enc (n : Nat) : decNat (Value.vnat n) = some n := rfl

theorem decStr_enc (s : String) : decStr (Value.vstr s) = some s := rfl

theorem decListAux_enc {f : α → Value} {g : Value → Option α}
    (hg : ∀ a, g (f a) = some a) (l : List α) :
    decListAux g (l.map f) = some l := by
  induction l with
  | nil => rfl
  | cons a l ih => simp [decListAux, hg, ih]

theorem decListWith_enc {f : α → Value} {g : Value → Option α}
    (hg : ∀ a, g (f a) = some a) (l : List α) :
    decListWith g (encListWith f l) = some l := by
  simp [decListWith, encListWith, decListAux_enc hg]

theorem decPairWith_enc {f1 : α → Value} {g1 : Value → Option α}
    {f2 : β → Value} {g2 : Value → Option β}
    (h1 : ∀ a, g1 (f1 a) = some a) (h2 : ∀ b, g2 (f2 b) = some b)
    (p : α × β) :
    decPairWith g1 g2 (encPairWith f1 f2 p) = some p := by
  simp [decPairWith, encPairWith, h1, h2]

theorem decOptionWith_enc {f : α → Value} {g : Value → Option α}
    (hg : ∀ a, g (f a) = some a) (o : Option α) :
    decOptionWith g (encOptionWith f o) = some o := by
  cases o with
  | none => rfl
  | some a => simp [encOptionWith, decOptionWith, hg]

def encPt2D (p : Pt2D) : Value :=
  Value.vlist [Value.vint p.x, Value.vint p.y]

def decPt2D : Value → Option Pt2D
  | Value.vlist [Value.vint a, Value.vint b] => some { x := a, y := b }
  | _ => none

theorem decPt2D_enc (p : Pt2D) : decPt2D (encPt2D p) = some p := rfl

def encPolygon (pg : Polygon) : Value :=
  encListWith encPt2D pg.points

def decPolygon (v : Value) : Option Polygon :=
  Option.map Polygon.mk (decListWith decPt2D v)

theorem decPolygon_enc (pg : Polygon) : decPolygon (encPolygon pg) = some pg := by
  simp [decPolygon, encPolygon, decListWith_enc decPt2D_enc]

def encPolyLine (pl : PolyLine) : Value :=
  encListWith encPt2D pl.points

def decPolyLine (v : Value) : Option PolyLine :=
  Option.map PolyLine.mk (decListWith decPt2D v)

theorem decPolyLine_enc (pl : PolyLine) :
    decPolyLine (encPolyLine pl) = some pl := by
  simp [decPolyLine, encPolyLine, decListWith_enc decPt2D_enc]

def encStrPair (p : String × String) : Value :=
  encPairWith Value.vstr Value.vstr p

def decStrPair (v : Value) : Option (String × String) :=
  decPairWith decStr decStr v

theorem decStrPair_enc (p : String × String) :
    decStrPair (encStrPair p) = some p := by
  simp [decStrPair, encStrPair,
    decPairWith_enc decStr_enc decStr_enc]

def encTags (t : Tags) : Value :=
  encListWith encStrPair t.pairs

def decTags (v : Value) : Option Tags :=
  Option.map Tags.mk (decListWith decStrPair v)

theorem decTags_enc (t : Tags) : decTags (encTags t) = some t := by
  simp [decTags, encTags, decListWith_enc decStrPair_enc]

def encCityName (c : CityName) : Value :=
  Value.vlist [Value.vstr c.country, Value.vstr c.city]

def decCityName : Value → Option CityName
  | Value.vlist [Value.vstr a, Value.vstr b] => some { country := a, city := b }
  | _ => none

theorem decCityName_enc (c : CityName) : decCityName (encCityName c) = some c := rfl

def encMapName (n : MapName) : Value :=
  Value.vlist [encCityName n.city, Value.vstr n.map]

def decMapName : Value → Option MapName
  | Value.vlist [vc, Value.vstr s] =>
    match decCityName vc with
    | some c => some { city := c, map := s }
    | none => none
  | _ => none

theorem decMapName_enc (n : MapName) : decMapName (encMapName n) = some n := rfl

def encAmenity (a : Amenity) : Value :=
  Value.vlist [encListWith encStrPair a.names, Value.vstr a.amenity_type]

def decAmenity : Value → Option Amenity
  | Value.vlist [vn, Value.vstr t] =>
    match decListWith decStrPair vn with
    | some names => some { names := names, amenity_type := t }
    | none => none
  | _ => none

theorem decAmenity_enc (a : Amenity) : decAmenity (encAmenity a) = some a := by
  simp [decAmenity, encAmenity, decListWith_enc decStrPair_enc]

def encAreaType (t : AreaType) : Value :=
  Value.vstr t.tag

def decAreaType (v : Value) : Option AreaType :=
  Option.map AreaType.mk (decStr v)

theorem decAreaType_enc (t : AreaType) : decAreaType (encAreaType t) = some t := rfl

def encOsmID : OsmID → Value
  | OsmID.node n => Value.vlist [Value.vnat 0, Value.vint n]
  | OsmID.way w => Value.vlist [Value.vnat 1, Value.vint w]
  | OsmID.relation r => Value.vlist [Value.vnat 2, Value.vint r]

def decOsmID : Value → Option OsmID
  | Value.vlist [Value.vnat 0, Value.vint n] => some (OsmID.node n)
  | Value.vlist [Value.vnat 1, Value.vint w] => some (OsmID.way w)
  | Value.vlist [Value.vnat 2, Value.vint r] => some (OsmID.relation r)
  | _ => none

theorem decOsmID_enc (i : OsmID) : decOsmID (encOsmID i) = some i := by
  cases i <;> rfl

def encOriginalRoad (r : OriginalRoad) : Value :=
  Value.vlist [Value.vint r.osm_way_id, Value.vint r.i1, Value.vint r.i2]

def decOriginalRoad : Value → Option OriginalRoad
  | Value.vlist [Value.vint w, Value.vint a, Value.vint b] =>
    some { osm_way_id := w, i1 := a, i2 := b }
  | _ => none

theorem decOriginalRoad_enc (r : OriginalRoad) :
    decOriginalRoad (encOriginalRoad r) = some r := rfl

def encStreetNetwork (s : StreetNetwork) : Value :=
  Value.vlist [encListWith encOriginalRoad s.roads,
    encListWith Value.vint s.intersections]

def decStreetNetwork : Value → Option StreetNetwork
  | Value.vlist [vr, vi] =>
    match decListWith decOriginalRoad vr, decListWith decInt vi with
    | some roads, some inters => some { roads := roads, intersections := inters }
    | _, _ => none
  | _ => none

theorem decStreetNetwork_enc (s : StreetNetwork) :
    decStreetNetwork (encStreetNetwork s) = some s := by
  simp [decStreetNetwork, encStreetNetwork,
    decListWith_enc decOriginalRoad_enc,
    decListWith_enc decInt_enc]

def encRawTransitType : RawTransitType → Value
  | RawTransitType.bus => Value.vnat 0
  | RawTransitType.train => Value.vnat 1

def decRawTransitType : Value → Option RawTransitType
  | Value.vnat 0 => some RawTransitType.bus
  | Value.vnat 1 => some RawTransitType.train
  | _ => none

theorem decRawTransitType_enc (t : RawTransitType) :
    decRawTransitType (encRawTransitType t) = some t := by
  cases t <;> rfl

def encRawBuilding (b : RawBuilding) : Value :=
  Value.vlist [encPolygon b.polygon, encTags b.osm_tags,
    encOptionWith Value.vstr b.public_garage_name,
    Value.vnat b.num_parking_spots, encListWith encAmenity b.amenities]

def decRawBuilding : Value → Option RawBuilding
  | Value.vlist [vp, vt, vg, Value.vnat n, va] =>
    match decPolygon vp, decTags vt, decOptionWith decStr vg,
        decListWith decAmenity va with
    | some p, some t, some g, some a =>
      some { polygon := p, osm_tags := t, public_garage_name := g,
             num_parking_spots := n, amenities := a }
    | _, _, _, _ => none
  | _ => none

theorem decRawBuilding_enc (b : RawBuilding) :
    decRawBuilding (encRawBuilding b) = some b := by
  simp [decRawBuilding, encRawBuilding, decPolygon_enc, decTags_enc,
    decOptionWith_enc decStr_enc,
    decListWith_enc decAmenity_enc]

def encRawArea (a : RawArea) : Value :=
  Value.vlist [encAreaType a.area_type, encPolygon a.polygon,
    encTags a.osm_tags, encOsmID a.osm_id]

def decRawArea : Value → Option RawArea
  | Value.vlist [vt, vp, vg, vi] =>
    match decAreaType vt, decPolygon vp, decTags vg, decOsmID vi with
    | some t, some p, some g, some i =>
      some { area_type := t, polygon := p, osm_tags := g, osm_id := i }
    | _, _, _, _ => none
  | _ => none

theorem decRawArea_enc (a : RawArea) : decRawArea (encRawArea a) = some a := by
  simp [decRawArea, encRawArea, decAreaType_enc, decPolygon_enc, decTags_enc,
    decOsmID_enc]

def encRawParkingLot (p : RawParkingLot) : Value :=
  Value.vlist [encOsmID p.osm_id, encPolygon p.polygon, encTags p.osm_tags]

def decRawParkingLot : Value → Option RawParkingLot
  | Value.vlist [vi, vp, vt] =>
    match decOsmID vi, decPolygon vp, decTags vt with
    | some i, some p, some t =>
      some { osm_id := i, polygon := p, osm_tags := t }
    | _, _, _ => none
  | _ => none

theorem decRawParkingLot_enc (p : RawParkingLot) :
    decRawParkingLot (encRawParkingLot p) = some p := by
  simp [decRawParkingLot, encRawParkingLot, decOsmID_enc, decPolygon_enc,
    decTags_enc]

def encRawTransitRoute (r : RawTransitRoute) : Value :=
  Value.vlist [Value.vstr r.long_name, Value.vstr r.short_name,
    Value.vstr r.gtfs_id, encPolyLine r.shape,
    encListWith Value.vstr r.stops, encRawTransitType r.route_type]

def decRawTransitRoute : Value → Option RawTransitRoute
  | Value.vlist [Value.vstr ln, Value.vstr sn, Value.vstr gi, vs, vst, vt] =>
    match decPolyLine vs, decListWith decStr vst, decRawTransitType vt with
    | some shape, some stops, some ty =>
      some { long_name := ln, short_name := sn, gtfs_id := gi, shape := shape,
             stops := stops, route_type := ty }
    | _, _, _ => none
  | _ => none

theorem decRawTransitRoute_enc (r : RawTransitRoute) :
    decRawTransitRoute (encRawTransitRoute r) = some r := by
  simp [decRawTransitRoute, encRawTransitRoute, decPolyLine_enc,
    decListWith_enc decStr_enc, decRawTransitType_enc]

def encRawTransitStop (s : RawTransitStop) : Value :=
  Value.vlist [Value.vstr s.gtfs_id, encPt2D s.position, Value.vstr s.name]

def decRawTransitStop : Value → Option RawTransitStop
  | Value.vlist [Value.vstr gi, vp, Value.vstr n] =>
    match decPt2D vp with
    | some p => some { gtfs_id := gi, position := p, name := n }
    | none => none
  | _ => none

theorem decRawTransitStop_enc (s : RawTransitStop) :
    decRawTransitStop (encRawTransitStop s) = some s := by
  simp [decRawTransitStop, encRawTransitStop, decPt2D_enc]

def encMultiMap (mm : MultiMap Int String) : Value :=
  encListWith (encPairWith Value.vint (encListWith Value.vstr)) mm.entries

def decMultiMap (v : Value) : Option (MultiMap Int String) :=
  Option.map MultiMap.mk
    (decListWith (decPairWith decInt (decListWith decStr)) v)

theorem decMultiMap_enc (mm : MultiMap Int String) :
    decMultiMap (encMultiMap mm) = some mm := by
  simp only [decMultiMap, encMultiMap]
  rw [decListWith_enc (decPairWith_enc decInt_enc (decListWith_enc decStr_enc))]
  rfl

def encRawMap (m : RawMap) : Value :=
  Value.vlist [encMapName m.name, encStreetNetwork m.streets,
    encListWith (encPairWith encOsmID encRawBuilding) m.buildings,
    encListWith encRawArea m.areas,
    encListWith encRawParkingLot m.parking_lots,
    encListWith (encPairWith Value.vint (encListWith encPt2D)) m.parking_aisles,
    encListWith encRawTransitRoute m.transit_routes,
    encListWith (encPairWith Value.vstr encRawTransitStop) m.transit_stops,
    encMultiMap m.bus_routes_on_roads]

def decRawMap : Value → Option RawMap
  | Value.vlist [v1, v2, v3, v4, v5, v6, v7, v8, v9] =>
    match decMapName v1, decStreetNetwork v2,
        decListWith (decPairWith decOsmID decRawBuilding) v3,
        decListWith decRawArea v4, decListWith decRawParkingLot v5,
        decListWith (decPairWith decInt (decListWith decPt2D)) v6,
        decListWith decRawTransitRoute v7,
        decListWith (decPairWith decStr decRawTransitStop) v8,
        decMultiMap v9 with
    | some name, some streets, some buildings, some areas, some lots,
      some aisles, some routes, some stops, some brr =>
      some { name := name, streets := streets, buildings := buildings,
             areas := areas, parking_lots := lots, parking_aisles := aisles,
             transit_routes := routes, transit_stops := stops,
             bus_routes_on_roads := brr }
    | _, _, _, _, _, _, _, _, _ => none
  | _ => none

theorem decRawMap_enc (m : RawMap) : decRawMap (encRawMap m) = some m := by
  simp [decRawMap, encRawMap, decMapName_enc, decStreetNetwork_enc,
    decListWith_enc (decPairWith_enc decOsmID_enc decRawBuilding_enc),
    decListWith_enc decRawArea_enc,
    decListWith_enc decRawParkingLot_enc,
    decListWith_enc (decPairWith_enc decInt_enc
      (decListWith_enc decPt2D_enc)),
    decListWith_enc decRawTransitRoute_enc,
    decListWith_enc (decPairWith_enc decStr_enc
      decRawTransitStop_enc),
    decMultiMap_enc]

/-- `RawMap::save`: writes the encoded snapshot of the whole aggregate through
the persistence adapter (the path derivation from `name` is external). The
model returns the written snapshot value. -/
def RawMap.save (m : RawMap) : Value :=
  encRawMap m

/-! ### Helper lemmas and concrete example maps -/

theorem wayIdUsed_eq_false_iff (m : RawMap) (id : Int) :
    wayIdUsed m id = false ↔
      (∀ rd ∈ m.streets.roads, rd.osm_way_id ≠ id) ∧
      ∀ b ∈ m.buildings, b.1 ≠ OsmID.way id := by
  rw [← Bool.not_eq_true, wayIdUsed]
  simp only [Bool.or_eq_true, List.any_eq_true, beq_iff_eq]
  push_neg
  tauto

theorem nodeIdUsed_eq_false_iff (m : RawMap) (id : Int) :
    nodeIdUsed m id = false ↔ ∀ i ∈ m.streets.intersections, i ≠ id := by
  rw [← Bool.not_eq_true, nodeIdUsed]
  simp only [List.any_eq_true, beq_iff_eq]
  push_neg
  tauto

/-- All way-kind identifiers present across the street network's roads and the
way-keyed buildings, as one list. -/
def allWayIds (m : RawMap) : List Int :=
  m.streets.roads.map (fun r => r.osm_way_id) ++
    m.buildings.filterMap (fun b =>
      match b.1 with
      | OsmID.way w => some w
      | _ => none)

theorem mem_allWayIds_iff (m : RawMap) (id : Int) :
    id ∈ allWayIds m ↔ id ∈ occupiedWays m := by
  simp [allWayIds, occupiedWays]

/-- A concrete map name for the examples. -/
def exName : MapName :=
  { city := { country := "us", city := "seattle" }, map := "montlake" }

/-- A trivial concrete building for the examples. -/
def exBuilding : RawBuilding :=
  { polygon := { points := [] }, osm_tags := { pairs := [] },
    public_garage_name := none, num_parking_spots := 0, amenities := [] }

/-- The spec's example map: one road whose originating way identifier is 5. -/
def exRoad5 : RawMap :=
  { RawMap.blank exName with
    streets := { roads := [{ osm_way_id := 5, i1 := 1, i2 := 2 }],
                 intersections := [1, 2] } }

/-- The spec's example map extended with a building keyed by way id -1. -/
def exRoad5Bldg : RawMap :=
  { exRoad5 with buildings := [(OsmID.way (-1), exBuilding)] }

/-- A map with a building keyed by node id -1 and no intersections. -/
def exNodeBldg : RawMap :=
  { RawMap.blank exName with buildings := [(OsmID.node (-1), exBuilding)] }

/-- A concrete area whose originating identifier is way -1. -/
def exArea : RawArea :=
  { area_type := { tag := "park" }, polygon := { points := [] },
    osm_tags := { pairs := [] }, osm_id := OsmID.way (-1) }

/-- A concrete parking lot whose originating identifier is way -1. -/
def exLot : RawParkingLot :=
  { osm_id := OsmID.way (-1), polygon := { points := [] },
    osm_tags := { pairs := [] } }

/-- A map whose only occupants of way id -1 are an area and a parking lot. -/
def exAreaLot : RawMap :=
  { RawMap.blank exName with areas := [exArea], parking_lots := [exLot] }

theorem new_way_exRoad5_eval : new_osm_way_id exRoad5 (-1) = some (-1) := by
  have h : ¬ (wayIdUsed exRoad5 (-1) = true) := by decide
  rw [new_osm_way_id, if_pos (by decide : (-1 : Int) < 0), scanWay, dif_neg h]

theorem new_way_exRoad5Bldg_eval :
    new_osm_way_id exRoad5Bldg (-1) = some (-2) := by
  have h1 : wayIdUsed exRoad5Bldg (-1) = true := by decide
  have h2 : ¬ (wayIdUsed exRoad5Bldg (-1 - 1) = true) := by decide
  rw [new_osm_way_id, if_pos (by decide : (-1 : Int) < 0), scanWay, dif_pos h1,
    scanWay, dif_neg h2]
  norm_num

theorem new_node_exNodeBldg_eval :
    new_osm_node_id exNodeBldg (-1) = some (-1) := by
  have h : ¬ (nodeIdUsed exNodeBldg (-1) = true) := by decide
  rw [new_osm_node_id, if_pos (by decide : (-1 : Int) < 0), scanNode, dif_neg h]

theorem new_way_exAreaLot_eval : new_osm_way_id exAreaLot (-1) = some (-1) := by
  have h : ¬ (wayIdUsed exAreaLot (-1) = true) := by decide
  rw [new_osm_way_id, if_pos (by decide : (-1 : Int) < 0), scanWay, dif_neg h]

/-! ### The claims -/

/-- C1: for every RawMap and every start < 0, `new_osm_way_id` returns a value
≤ start that equals no road's originating way identifier and no way-based
building key. -/
theorem C1_way_alloc_fresh (m : RawMap) (start : Int) (h : start < 0) :
    ∃ r, new_osm_way_id m start = some r ∧ r ≤ start ∧
      (∀ rd ∈ m.streets.roads, rd.osm_way_id ≠ r) ∧
      ∀ b ∈ m.buildings, b.1 ≠ OsmID.way r := by
  refine ⟨scanWay m start, ?_, scanWay_le m start, ?_⟩
  · rw [new_osm_way_id, if_pos h]
  · exact (wayIdUsed_eq_false_iff m (scanWay m start)).mp
      (scanWay_not_used m start)

theorem C1_witness :
    ∃ r, new_osm_way_id exRoad5 (-1) = some r ∧ r ≤ -1 ∧
      (∀ rd ∈ exRoad5.streets.roads, rd.osm_way_id ≠ r) ∧
      ∀ b ∈ exRoad5.buildings, b.1 ≠ OsmID.way r :=
  C1_way_alloc_fresh exRoad5 (-1) (by decide)

/-- C2: for every RawMap and every start < 0, `new_osm_node_id` returns a
value ≤ start that equals no intersection identifier. -/
theorem C2_node_alloc_fresh (m : RawMap) (start : Int) (h : start < 0) :
    ∃ r, new_osm_node_id m start = some r ∧ r ≤ start ∧
      ∀ i ∈ m.streets.intersections, i ≠ r := by
  refine ⟨scanNode m start, ?_, scanNode_le m start, ?_⟩
  · rw [new_osm_node_id, if_pos h]
  · exact (nodeIdUsed_eq_false_iff m (scanNode m start)).mp
      (scanNode_not_used m start)

theorem C2_witness :
    ∃ r, new_osm_node_id exRoad5 (-1) = some r ∧ r ≤ -1 ∧
      ∀ i ∈ exRoad5.streets.intersections, i ≠ r :=
  C2_node_alloc_fresh exRoad5 (-1) (by decide)

/-- C3: each allocator returns the greatest unoccupied value at or below
start: the returned value is unoccupied (so an occupied start is never
returned) and every value strictly between it and start, start included, is
occupied — the scan decrements by exactly 1 with no skips. In particular, on a
map with one road of way id 5, `new_osm_way_id (-1)` returns -1, and with a
building additionally keyed by way id -1 the same call returns -2. -/
theorem C3_greatest_unoccupied (m : RawMap) (start : Int) (h : start < 0) :
    (∃ r, new_osm_way_id m start = some r ∧ wayIdUsed m r = false ∧
      ∀ j, r < j → j ≤ start → wayIdUsed m j = true) ∧
    (∃ r, new_osm_node_id m start = some r ∧ nodeIdUsed m r = false ∧
      ∀ j, r < j → j ≤ start → nodeIdUsed m j = true) ∧
    new_osm_way_id exRoad5 (-1) = some (-1) ∧
    new_osm_way_id exRoad5Bldg (-1) = some (-2) := by
  refine ⟨⟨scanWay m start, ?_, scanWay_not_used m start,
      scanWay_occupied_between m start⟩,
    ⟨scanNode m start, ?_, scanNode_not_used m start,
      scanNode_occupied_between m start⟩,
    new_way_exRoad5_eval, new_way_exRoad5Bldg_eval⟩
  · rw [new_osm_way_id, if_pos h]
  · rw [new_osm_node_id, if_pos h]

theorem C3_witness : new_osm_way_id exRoad5 (-1) = some (-1) :=
  (C3_greatest_unoccupied exRoad5 (-1) (by decide)).2.2.1

/-- C4: both allocators are deterministic: on a fixed map and fixed start,
two calls to the same allocator return the same value. -/
theorem C4_deterministic (m : RawMap) (start : Int) :
    (∀ r1 r2, new_osm_way_id m start = some r1 →
      new_osm_way_id m start = some r2 → r1 = r2) ∧
    ∀ r1 r2, new_osm_node_id m start = some r1 →
      new_osm_node_id m start = some r2 → r1 = r2 := by
  constructor <;> intro r1 r2 h1 h2 <;> rw [h1] at h2 <;>
    exact Option.some.inj h2

theorem C4_witness : (-1 : Int) = -1 :=
  (C4_deterministic exRoad5 (-1)).1 (-1) (-1) new_way_exRoad5_eval
    new_way_exRoad5_eval

/-- C5: each allocator hits its assertion (modelled as the `none` branch)
exactly when start is non-negative; under start < 0 it returns normally. -/
theorem C5_assert_guard (m : RawMap) (start : Int) :
    (new_osm_way_id m start = none ↔ 0 ≤ start) ∧
    (new_osm_node_id m start = none ↔ 0 ≤ start) ∧
    (start < 0 → (∃ r, new_osm_way_id m start = some r) ∧
      ∃ r, new_osm_node_id m start = some r) := by
  unfold new_osm_way_id new_osm_node_id
  rcases lt_or_le start 0 with h | h
  · rw [if_pos h, if_pos h]
    refine ⟨?_, ?_, fun _ => ⟨⟨_, rfl⟩, ⟨_, rfl⟩⟩⟩ <;> simp <;> omega
  · rw [if_neg (by omega), if_neg (by omega)]
    exact ⟨by simp [h], by simp [h], fun hlt => absurd hlt (by omega)⟩

theorem C5_witness :
    (new_osm_way_id exRoad5 (-1) = none ↔ 0 ≤ (-1 : Int)) ∧
    (new_osm_node_id exRoad5 (-1) = none ↔ 0 ≤ (-1 : Int)) ∧
    (∃ r, new_osm_way_id exRoad5 (-1) = some r) ∧
    ∃ r, new_osm_node_id exRoad5 (-1) = some r :=
  have h := C5_assert_guard exRoad5 (-1)
  ⟨h.1, h.2.1, h.2.2 (by decide)⟩

/-- C6: for every RawMap (finite collections) and start < 0, each allocator's
scanning loop terminates: it returns a result, and that result is a free
identifier reached by the scan. -/
theorem C6_loop_terminates (m : RawMap) (start : Int) (h : start < 0) :
    (∃ r, new_osm_way_id m start = some r ∧ wayIdUsed m r = false) ∧
    ∃ r, new_osm_node_id m start = some r ∧ nodeIdUsed m r = false := by
  rw [new_osm_way_id, if_pos h, new_osm_node_id, if_pos h]
  exact ⟨⟨_, rfl, scanWay_not_used m start⟩, _, rfl, scanNode_not_used m start⟩

theorem C6_witness :
    (∃ r, new_osm_way_id exRoad5 (-1) = some r ∧ wayIdUsed exRoad5 r = false) ∧
    ∃ r, new_osm_node_id exRoad5 (-1) = some r ∧ nodeIdUsed exRoad5 r = false :=
  C6_loop_terminates exRoad5 (-1) (by decide)

/-- C7 counterexample: the node-kind allocator consults only intersections, so
its result can equal a node-based building key: on a map whose only occupant
of node id -1 is a building keyed by node -1, `new_osm_node_id (-1)` returns
-1, which equals that building key. -/
theorem C7_counterexample :
    new_osm_node_id exNodeBldg (-1) = some (-1) ∧
    exNodeBldg.buildings.any (fun b => b.1 == OsmID.node (-1)) = true :=
  ⟨new_node_exNodeBldg_eval, by decide⟩

/-- C7 (amended): the way-kind result differs from every road way identifier
and every way-based building key, so consing it onto the way-kind identifiers
preserves pairwise distinctness; the node-kind result differs from every
intersection identifier, so consing it onto the intersection identifiers
preserves pairwise distinctness there — but the node-kind result is not
guaranteed distinct from node-based building keys. -/
theorem C7_insert_preserves_distinct (m : RawMap) (start : Int)
    (h : start < 0) :
    (∀ r, new_osm_way_id m start = some r →
      (allWayIds m).Nodup → (r :: allWayIds m).Nodup) ∧
    ∀ r, new_osm_node_id m start = some r →
      m.streets.intersections.Nodup → (r :: m.streets.intersections).Nodup := by
  constructor
  · intro r hr hnd
    rw [new_osm_way_id, if_pos h] at hr
    obtain rfl : scanWay m start = r := Option.some.inj hr
    rw [List.nodup_cons]
    refine ⟨fun hmem => ?_, hnd⟩
    rw [mem_allWayIds_iff] at hmem
    have hTrue := (wayIdUsed_iff m (scanWay m start)).mpr hmem
    rw [scanWay_not_used m start] at hTrue
    exact Bool.false_ne_true hTrue
  · intro r hr hnd
    rw [new_osm_node_id, if_pos h] at hr
    obtain rfl : scanNode m start = r := Option.some.inj hr
    rw [List.nodup_cons]
    refine ⟨fun hmem => ?_, hnd⟩
    have hTrue := (nodeIdUsed_iff m (scanNode m start)).mpr
      (List.mem_toFinset.mpr hmem)
    rw [scanNode_not_used m start] at hTrue
    exact Bool.false_ne_true hTrue

theorem C7_witness : ((-1 : Int) :: allWayIds exRoad5).Nodup :=
  (C7_insert_preserves_distinct exRoad5 (-1) (by decide)).1 (-1)
    new_way_exRoad5_eval (by decide)

/-- C8: the way-kind check consults neither areas nor parking lots: there is a
RawMap and a start < 0 on which `new_osm_way_id` returns the originating
identifier of an area and of a parking lot. -/
theorem C8_areas_lots_not_consulted :
    ∃ (m : RawMap) (start : Int), start < 0 ∧
      ∃ r, new_osm_way_id m start = some r ∧
        (∃ a ∈ m.areas, a.osm_id = OsmID.way r) ∧
        ∃ p ∈ m.parking_lots, p.osm_id = OsmID.way r := by
  exact ⟨exAreaLot, -1, by decide, -1, new_way_exAreaLot_eval,
    ⟨exArea, by decide, rfl⟩, ⟨exLot, by decide, rfl⟩⟩

/-- C9: `blank` is total and returns a RawMap with the given name, all
collections empty, and a street network with zero roads and intersections. -/
theorem C9_blank_empty (name : MapName) :
    (RawMap.blank name).name = name ∧
    (RawMap.blank name).buildings = [] ∧
    (RawMap.blank name).areas = [] ∧
    (RawMap.blank name).parking_lots = [] ∧
    (RawMap.blank name).parking_aisles = [] ∧
    (RawMap.blank name).transit_routes = [] ∧
    (RawMap.blank name).transit_stops = [] ∧
    (RawMap.blank name).bus_routes_on_roads = MultiMap.new Int String ∧
    (RawMap.blank name).streets.roads.length = 0 ∧
    (RawMap.blank name).streets.intersections.length = 0 :=
  ⟨rfl, rfl, rfl, rfl, rfl, rfl, rfl, rfl, rfl, rfl⟩

/-- C10: the snapshot written by `save` deserializes back to a RawMap with
identical field values — in particular the buildings and transit-stop map
entries, the four sequence fields and the multimap contents are reproduced
exactly, order included. -/
theorem C10_snapshot_roundtrip (m : RawMap) :
    ∃ m2, decRawMap (RawMap.save m) = some m2 ∧ m2 = m ∧
      m2.buildings = m.buildings ∧ m2.transit_stops = m.transit_stops ∧
      m2.areas = m.areas ∧ m2.parking_lots = m.parking_lots ∧
      m2.parking_aisles = m.parking_aisles ∧
      m2.transit_routes = m.transit_routes ∧
      m2.bus_routes_on_roads = m.bus_routes_on_roads :=
  ⟨m, by rw [RawMap.save]; exact decRawMap_enc m,
    rfl, rfl, rfl, rfl, rfl, rfl, rfl, rfl⟩

end AbStreet
